import Mathlib

/-!
Shallow embedding of the Responsibility Resolution Engine
(src/core/rules.py, src/core/negotiation.py, src/core/calculator.py and
the hand-off step of src/core/engine.py).

Modelling conventions:
- Python numbers are embedded as `Rat` (exact rational arithmetic); values
  that the source keeps as Python ints (the liability percentages produced
  by `round`) are embedded as `Int`.
- Python `round(x)` rounds half to even and returns an int; it is embedded
  as `pyRound`.  `round(x, 2)` is embedded as `pyRound2` (half to even at
  two decimals).
- Python dicts with `.get(key, default)` access are embedded as structures
  with `Option` fields, read through `Option.getD`.
- The narrative justification strings built by the source are not modelled;
  no claim is about them.  All other result fields are kept.
-/

/-- Python round-half-to-even, as used by the source via the builtin round. -/
def pyRound (x : Rat) : Int :=
  let n : Int := ⌊x⌋
  let frac : Rat := x - n
  if frac < 1/2 then n
  else if 1/2 < frac then n + 1
  else if n % 2 = 0 then n else n + 1

/-- Python round(x, 2): round half to even at two decimal places. -/
def pyRound2 (x : Rat) : Rat :=
  (pyRound (x * 100) : Rat) / 100

/-! ## src/core/rules.py — MatrizResponsabilidad -/

/-- The fixed 15x15 table of outcome codes, transcribed row by row from
MatrizResponsabilidad.__init__ (self.matriz). -/
def matriz : List (List String) := [
  ["NA", "B", "A", "B", "B", "A", "NA", "B", "B", "NA", "NA", "B", "B", "A", "B"],
  ["A", "NA", "A", "B", "NA", "A", "NA", "B", "NA", "A", "A", "A", "NA", "A", "A"],
  ["B", "B", "NA", "B", "NA", "B", "NA", "B", "B", "B", "B", "B", "B", "B", "NA"],
  ["A", "A", "A", "C", "C", "A", "A", "B", "B", "A", "A", "A", "B", "A", "B"],
  ["A", "NA", "NA", "C", "C", "A", "NA", "C", "NA", "A", "A", "A", "B", "NA", "A"],
  ["B", "B", "A", "B", "B", "NA", "NA", "B", "C", "B", "B", "B", "B", "A", "A"],
  ["NA", "NA", "NA", "B", "NA", "NA", "NA", "NA", "NA", "NA", "NA", "NA", "NA", "NA", "A"],
  ["A", "A", "A", "A", "C", "A", "NA", "C", "A", "A", "A", "A", "B", "A", "A"],
  ["A", "NA", "A", "A", "NA", "C", "NA", "B", "C", "A", "A", "A", "B", "C", "A"],
  ["NA", "B", "A", "B", "B", "A", "NA", "B", "B", "C", "C", "A", "B", "A", "A"],
  ["NA", "B", "A", "B", "B", "A", "NA", "B", "B", "C", "NA", "A", "B", "A", "A"],
  ["A", "B", "A", "B", "B", "A", "NA", "B", "B", "B", "B", "NA", "B", "A", "A"],
  ["A", "NA", "A", "A", "A", "A", "NA", "A", "A", "A", "A", "A", "NA", "A", "A"],
  ["B", "B", "A", "B", "NA", "B", "NA", "B", "C", "B", "B", "B", "B", "C", "A"],
  ["B", "B", "NA", "A", "B", "B", "B", "B", "B", "B", "B", "B", "B", "B", "NA"]]

/-- Result of MatrizResponsabilidad.determinar_responsabilidad: the returned
dict, with the keys that are present only in some branches as Option fields
(the justification string is not modelled). -/
structure ResultadoResponsabilidad where
  responsable : String
  porcentaje_a : Option Int
  porcentaje_b : Option Int
  codigo_matriz : Option String
  mensaje : Option String
deriving DecidableEq

/-- Cell access self.matriz[a-1][b-1]; performed by the source only after the
range guard, so the out-of-range placeholder is unreachable on valid input. -/
def codigoMatriz (a b : Int) : String :=
  (matriz.getD (a - 1).toNat []).getD (b - 1).toNat ""

/-- MatrizResponsabilidad._interpretar_codigo: maps a matrix code to the
structured result (justification strings not modelled). -/
def interpretarCodigo (codigo : String) : ResultadoResponsabilidad :=
  if codigo = "A" then
    ⟨"vehiculo_a", some 100, some 0, some "A", none⟩
  else if codigo = "B" then
    ⟨"vehiculo_b", some 0, some 100, some "B", none⟩
  else if codigo = "C" then
    ⟨"compartida", some 50, some 50, some "C", none⟩
  else if codigo = "NA" then
    ⟨"no_aplica", none, none, some "NA",
      some "No es posible determinar responsabilidad bajo estas circunstancias"⟩
  else if codigo = "NRD" then
    ⟨"indeterminado", none, none, some "NRD",
      some "Se requiere informacion adicional para determinar responsabilidad"⟩
  else
    ⟨"error", none, none, some codigo,
      some "Codigo desconocido en la matriz"⟩

/-- MatrizResponsabilidad.determinar_responsabilidad: range guard, table
lookup, code interpretation. -/
def determinarResponsabilidad (a b : Int) : ResultadoResponsabilidad :=
  if ¬ (1 ≤ a ∧ a ≤ 15 ∧ 1 ≤ b ∧ b ≤ 15) then
    ⟨"error", none, none, none, some "Las circunstancias deben estar entre 1 y 15"⟩
  else
    interpretarCodigo (codigoMatriz a b)

/-! ## src/core/negotiation.py — NegociadorResponsabilidad -/

/-- self.max_iteraciones = 5. -/
def maxIteraciones : Nat := 5

/-- self.umbral_convergencia = 0.05 (the source comment labels it 5 percent). -/
def umbralConvergencia : Rat := 5/100

/-- A (porcentaje_a, porcentaje_b) distribution; always integer-valued in the
source (outputs of round, or the literal 50s). -/
structure Distribucion where
  porcentaje_a : Int
  porcentaje_b : Int
deriving DecidableEq

/-- The analisis / clasificacion sub-dict of an evidence or document item:
optional suggested responsibility and optional confidence (read with default
0.5 by the source). -/
structure Analisis where
  responsabilidad_sugerida : Option String
  confianza : Option Rat
deriving DecidableEq

/-- An evidence item as read by _calcular_peso_evidencias: the procesada flag
(dict default False) and the analisis sub-dict. -/
structure Evidencia where
  procesada : Bool
  analisis : Analisis
deriving DecidableEq

/-- A document item as read by _calcular_peso_documentos: its clasificacion
sub-dict. -/
structure Documento where
  clasificacion : Analisis
deriving DecidableEq

/-- Accumulated weights plus contributing-item count, the shape returned by
_calcular_peso_evidencias / _calcular_peso_documentos. -/
structure PesoResumen where
  peso_a : Rat
  peso_b : Rat
  total : Nat
deriving DecidableEq

/-- Loop body of _calcular_peso_evidencias: skip unprocessed items, count the
item, then add its confidence to the OPPOSITE party weight (shared adds half
to each). -/
def pasoEvidencia (acc : PesoResumen) (ev : Evidencia) : PesoResumen :=
  if ev.procesada = false then acc
  else
    let acc1 : PesoResumen := { acc with total := acc.total + 1 }
    match ev.analisis.responsabilidad_sugerida with
    | none => acc1
    | some s =>
      let conf : Rat := ev.analisis.confianza.getD (1/2)
      if s = "vehiculo_a" then { acc1 with peso_b := acc1.peso_b + conf }
      else if s = "vehiculo_b" then { acc1 with peso_a := acc1.peso_a + conf }
      else if s = "compartida" then
        { acc1 with peso_a := acc1.peso_a + conf * (1/2),
                    peso_b := acc1.peso_b + conf * (1/2) }
      else acc1

/-- _calcular_peso_evidencias: fold the loop body, then divide both weights by
the count when it is nonzero. -/
def calcularPesoEvidencias (evidencias : List Evidencia) : PesoResumen :=
  let acc := evidencias.foldl pasoEvidencia ⟨0, 0, 0⟩
  if acc.total > 0 then
    { acc with peso_a := acc.peso_a / (acc.total : Rat),
               peso_b := acc.peso_b / (acc.total : Rat) }
  else acc

/-- Loop body of _calcular_peso_documentos: skip items whose confidence is
below 0.3, count the item, then add the confidence to the OPPOSITE party
weight (shared adds half to each). -/
def pasoDocumento (acc : PesoResumen) (doc : Documento) : PesoResumen :=
  let conf : Rat := doc.clasificacion.confianza.getD (1/2)
  if conf < 3/10 then acc
  else
    let acc1 : PesoResumen := { acc with total := acc.total + 1 }
    match doc.clasificacion.responsabilidad_sugerida with
    | none => acc1
    | some s =>
      if s = "vehiculo_a" then { acc1 with peso_b := acc1.peso_b + conf }
      else if s = "vehiculo_b" then { acc1 with peso_a := acc1.peso_a + conf }
      else if s = "compartida" then
        { acc1 with peso_a := acc1.peso_a + conf * (1/2),
                    peso_b := acc1.peso_b + conf * (1/2) }
      else acc1

/-- _calcular_peso_documentos: fold the loop body, then divide both weights by
the count when it is nonzero. -/
def calcularPesoDocumentos (documentos : List Documento) : PesoResumen :=
  let acc := documentos.foldl pasoDocumento ⟨0, 0, 0⟩
  if acc.total > 0 then
    { acc with peso_a := acc.peso_a / (acc.total : Rat),
               peso_b := acc.peso_b / (acc.total : Rat) }
  else acc

/-- The rounding-residual correction appearing verbatim at the end of both
_distribucion_inicial and _ajustar_distribucion: when the pair does not sum
to 100, add the residual to porcentaje_a. -/
def corregirSuma (pa pb : Int) : Int :=
  if pa + pb ≠ 100 then pa + (100 - (pa + pb)) else pa

/-- The per-circumstance severity weights (the pesos dict), default 5.0. -/
def pesoCircunstancia (c : Int) : Rat :=
  if c = 1 then 19/2
  else if c = 2 then 8
  else if c = 3 then 15/2
  else if c = 4 then 9
  else if c = 5 then 17/2
  else if c = 6 then 7
  else if c = 7 then 13/2
  else if c = 8 then 15/2
  else if c = 9 then 6
  else if c = 10 then 7
  else if c = 11 then 6
  else if c = 12 then 9
  else if c = 13 then 10
  else if c = 14 then 5
  else if c = 15 then 2
  else 5

/-- _distribucion_inicial: seed percentages proportional to the OTHER party
weight, then the residual correction. -/
def distribucionInicial (a b : Int) : Distribucion :=
  let pesoA := pesoCircunstancia a
  let pesoB := pesoCircunstancia b
  let totalPeso := pesoA + pesoB
  let par : Int × Int :=
    if totalPeso > 0 then
      (pyRound (pesoB / totalPeso * 100), pyRound (pesoA / totalPeso * 100))
    else (50, 50)
  ⟨corregirSuma par.1 par.2, par.2⟩

/-- _ajustar_distribucion: blend 50 percent carried distribution, 30 percent
evidence weights x100, 20 percent document weights x100; renormalize to 100
with rounding; then the residual correction. -/
def ajustarDistribucion (d : Distribucion) (pesoEvidencias pesoDocumentos : PesoResumen) :
    Distribucion :=
  let factorEvidencias : Rat := 3/10
  let factorDocumentos : Rat := 2/10
  let factorDistribucionActual : Rat := 1 - factorEvidencias - factorDocumentos
  let porcentajeA : Rat :=
    (d.porcentaje_a : Rat) * factorDistribucionActual +
    pesoEvidencias.peso_a * 100 * factorEvidencias +
    pesoDocumentos.peso_a * 100 * factorDocumentos
  let porcentajeB : Rat :=
    (d.porcentaje_b : Rat) * factorDistribucionActual +
    pesoEvidencias.peso_b * 100 * factorEvidencias +
    pesoDocumentos.peso_b * 100 * factorDocumentos
  let total := porcentajeA + porcentajeB
  let par : Int × Int :=
    if total > 0 then
      (pyRound (porcentajeA / total * 100), pyRound (porcentajeB / total * 100))
    else (50, 50)
  ⟨corregirSuma par.1 par.2, par.2⟩

/-- _converge: absolute difference of the porcentaje_a values at most the
threshold 0.05. -/
def convergeDist (anterior actual : Distribucion) : Bool :=
  ((|anterior.porcentaje_a - actual.porcentaje_a| : Int) : Rat) ≤ umbralConvergencia

/-- The while loop of negociar, fuel-encoded: fuel is maxIteraciones minus the
iteration counter, so the guard iteracion below max_iteraciones is fuel above 0.
Each round saves the previous distribution, adjusts, breaks on convergence
(returning the counter before its increment, as the source does), otherwise
increments the counter. Returns the final distribution and counter. -/
def negociarLoop (pesoEvidencias pesoDocumentos : PesoResumen) :
    Nat → Nat → Distribucion → Distribucion × Nat
  | 0, iteracion, dist => (dist, iteracion)
  | fuel + 1, iteracion, dist =>
    let siguiente := ajustarDistribucion dist pesoEvidencias pesoDocumentos
    if convergeDist dist siguiente then (siguiente, iteracion)
    else negociarLoop pesoEvidencias pesoDocumentos fuel (iteracion + 1) siguiente

/-- Result of negociar (justification string not modelled). -/
structure ResultadoNegociacion where
  responsable : String
  porcentaje_a : Int
  porcentaje_b : Int
  iteraciones : Nat
  convergio : Bool
deriving DecidableEq

/-- The seed-plus-loop part of negociar: final distribution and iteration
counter. -/
def negociarRun (a b : Int) (documentos : List Documento) (evidencias : List Evidencia) :
    Distribucion × Nat :=
  negociarLoop (calcularPesoEvidencias evidencias) (calcularPesoDocumentos documentos)
    maxIteraciones 0 (distribucionInicial a b)

/-- negociar: run the loop, then classify with the 90 percent dominance
thresholds and report the actual percentages, the iteration counter and the
convergence flag, which is the comparison of the counter with the maximum. -/
def negociar (a b : Int) (documentos : List Documento) (evidencias : List Evidencia) :
    ResultadoNegociacion :=
  let r := negociarRun a b documentos evidencias
  let dist := r.1
  let iteracion := r.2
  let responsable :=
    if dist.porcentaje_a ≥ 90 then "vehiculo_a"
    else if dist.porcentaje_b ≥ 90 then "vehiculo_b"
    else "compartida"
  ⟨responsable, dist.porcentaje_a, dist.porcentaje_b, iteracion,
    decide (iteracion < maxIteraciones)⟩

/-! ## src/core/calculator.py — CalculadorIndemnizacion -/

/-- A policy dict as read by the calculator: optional coverage tier (the dict
default is the basica tier), optional deductible percentage and optional
minimum deductible (dict defaults 0). -/
structure Poliza where
  tipo_cobertura : Option String
  deducible_porcentaje : Option Rat
  deducible_minimo : Option Rat
deriving DecidableEq

/-- The danos dict as read by the calculator: the monto of each vehicle
sub-dict, absent meaning the nested get chain defaults to 0. -/
structure Danos where
  vehiculo_a : Option Rat
  vehiculo_b : Option Rat
deriving DecidableEq

/-- One entry of the indemnizaciones list in the calculator result. -/
structure LineaIndemnizacion where
  pagador : String
  receptor : String
  monto_bruto : Rat
  deducible : Rat
  monto_neto : Rat
  moneda : String
  factor_cobertura : Rat
deriving DecidableEq

/-- The calculator result: the two payment lines (A pays B first, as in the
source list) and the resumen fields. -/
structure ResultadoIndemnizacion where
  a_paga_b : LineaIndemnizacion
  b_paga_a : LineaIndemnizacion
  total_danos_a : Rat
  total_danos_b : Rat
  porcentaje_responsabilidad_a : Int
  porcentaje_responsabilidad_b : Int
deriving DecidableEq

/-- CalculadorIndemnizacion._calcular_factor_cobertura: tier to factor, with
an explicit 0.7 default branch. -/
def factorCobertura (poliza : Poliza) : Rat :=
  let tipo := poliza.tipo_cobertura.getD "basica"
  if tipo = "premium" then 1
  else if tipo = "estandar" then 9/10
  else if tipo = "basica" then 8/10
  else 7/10

/-- CalculadorIndemnizacion._calcular_deducible: max of the percentage of the
amount and the minimum deductible. -/
def calcularDeducible (poliza : Poliza) (monto : Rat) : Rat :=
  max (monto * (poliza.deducible_porcentaje.getD 0 / 100)) (poliza.deducible_minimo.getD 0)

/-- CalculadorIndemnizacion.calcular_indemnizacion: cross payments scaled by
coverage factors, deductibles, non-negative nets, rounding to 2 decimals at
output construction. Missing percentage or damage keys default to 0. -/
def calcularIndemnizacion (responsabilidad : ResultadoResponsabilidad)
    (polizaA polizaB : Poliza) (danos : Danos) : ResultadoIndemnizacion :=
  let porcentajeA : Int := responsabilidad.porcentaje_a.getD 0
  let porcentajeB : Int := responsabilidad.porcentaje_b.getD 0
  let danosA : Rat := danos.vehiculo_a.getD 0
  let danosB : Rat := danos.vehiculo_b.getD 0
  let factorCoberturaA := factorCobertura polizaA
  let factorCoberturaB := factorCobertura polizaB
  let indemnizacionAB : Rat := ((porcentajeA : Rat) / 100) * danosB * factorCoberturaA
  let indemnizacionBA : Rat := ((porcentajeB : Rat) / 100) * danosA * factorCoberturaB
  let deducibleA := calcularDeducible polizaA indemnizacionBA
  let deducibleB := calcularDeducible polizaB indemnizacionAB
  let indemnizacionNetaA := max 0 (indemnizacionBA - deducibleA)
  let indemnizacionNetaB := max 0 (indemnizacionAB - deducibleB)
  { a_paga_b := ⟨"vehiculo_a", "vehiculo_b", pyRound2 indemnizacionAB,
      pyRound2 deducibleB, pyRound2 indemnizacionNetaB, "COP", factorCoberturaA⟩,
    b_paga_a := ⟨"vehiculo_b", "vehiculo_a", pyRound2 indemnizacionBA,
      pyRound2 deducibleA, pyRound2 indemnizacionNetaA, "COP", factorCoberturaB⟩,
    total_danos_a := pyRound2 danosA,
    total_danos_b := pyRound2 danosB,
    porcentaje_responsabilidad_a := porcentajeA,
    porcentaje_responsabilidad_b := porcentajeB }

/-! ## src/core/engine.py — MotorPrincipal, step 6 -/

/-- MotorPrincipal.procesar_siniestro step 6 (lines 115 to 123): the engine
invokes the calculator only when responsable is neither no_aplica nor
indeterminado; otherwise indemnizacion stays None. -/
def calcularIndemnizacionSiAplica (responsabilidad : ResultadoResponsabilidad)
    (polizaA polizaB : Poliza) (danos : Danos) : Option ResultadoIndemnizacion :=
  if responsabilidad.responsable = "no_aplica" ∨ responsabilidad.responsable = "indeterminado"
  then none
  else some (calcularIndemnizacion responsabilidad polizaA polizaB danos)

-- The rational arithmetic of the standard library is sealed; reopen it so
-- that concrete runs of the embedding evaluate inside decide.
unseal Rat.inv Rat.add Rat.mul Rat.sub

/-! ## Helper lemmas -/

/-- The residual correction forces the pair to sum to exactly 100. -/
theorem corregirSuma_add (pa pb : Int) : corregirSuma pa pb + pb = 100 := by
  unfold corregirSuma; split <;> omega

/-- The seed distribution sums to exactly 100. -/
theorem distribucionInicial_sum (a b : Int) :
    (distribucionInicial a b).porcentaje_a + (distribucionInicial a b).porcentaje_b = 100 := by
  unfold distribucionInicial
  exact corregirSuma_add _ _

/-- Every adjusted distribution sums to exactly 100, whatever the inputs. -/
theorem ajustarDistribucion_sum (d : Distribucion) (pe pd : PesoResumen) :
    (ajustarDistribucion d pe pd).porcentaje_a + (ajustarDistribucion d pe pd).porcentaje_b
      = 100 := by
  unfold ajustarDistribucion
  exact corregirSuma_add _ _

/-- The iteration counter returned by the loop is bounded by its starting
value plus the remaining fuel. -/
theorem negociarLoop_snd_le (pe pd : PesoResumen) :
    ∀ (fuel iteracion : Nat) (dist : Distribucion),
      (negociarLoop pe pd fuel iteracion dist).2 ≤ iteracion + fuel := by
  intro fuel
  induction fuel with
  | zero => intro it d; simp [negociarLoop]
  | succ n ih =>
    intro it d
    simp only [negociarLoop]
    split
    · simp
    · exact le_trans (ih (it + 1) _) (by omega)

/-- The loop preserves the sum-100 invariant of the distribution. -/
theorem negociarLoop_fst_sum (pe pd : PesoResumen) :
    ∀ (fuel iteracion : Nat) (dist : Distribucion),
      dist.porcentaje_a + dist.porcentaje_b = 100 →
      (negociarLoop pe pd fuel iteracion dist).1.porcentaje_a +
        (negociarLoop pe pd fuel iteracion dist).1.porcentaje_b = 100 := by
  intro fuel
  induction fuel with
  | zero => intro it d h; simpa [negociarLoop] using h
  | succ n ih =>
    intro it d _
    simp only [negociarLoop]
    split
    · exact ajustarDistribucion_sum _ _ _
    · exact ih (it + 1) _ (ajustarDistribucion_sum _ _ _)

/-- negociar unfolded to an explicit record over negociarRun. -/
theorem negociar_eq (a b : Int) (docs : List Documento) (evs : List Evidencia) :
    negociar a b docs evs =
      ⟨if (negociarRun a b docs evs).1.porcentaje_a ≥ 90 then "vehiculo_a"
        else if (negociarRun a b docs evs).1.porcentaje_b ≥ 90 then "vehiculo_b"
        else "compartida",
       (negociarRun a b docs evs).1.porcentaje_a,
       (negociarRun a b docs evs).1.porcentaje_b,
       (negociarRun a b docs evs).2,
       decide ((negociarRun a b docs evs).2 < maxIteraciones)⟩ := rfl

/-- The final distribution of a run sums to exactly 100. -/
theorem negociarRun_sum (a b : Int) (docs : List Documento) (evs : List Evidencia) :
    (negociarRun a b docs evs).1.porcentaje_a + (negociarRun a b docs evs).1.porcentaje_b
      = 100 :=
  negociarLoop_fst_sum _ _ _ _ _ (distribucionInicial_sum a b)

/-! ## Claim theorems -/

/-- C3 counterexample: lookup(7,1) is NotApplicable in the baked-in table,
not SoleB(0,100) as claimed: the cell at row 7, column 1 holds the code NA. -/
theorem matrix_cell_7_1_is_not_soleB :
    (determinarResponsabilidad 7 1).responsable = "no_aplica" ∧
    (determinarResponsabilidad 7 1).responsable ≠ "vehiculo_b" ∧
    (determinarResponsabilidad 7 1).porcentaje_a = none ∧
    (determinarResponsabilidad 7 1).porcentaje_b = none := by
  decide

/-- C3 (amended): lookup(4,5) is Shared(50,50), lookup(1,2) is SoleB(0,100),
lookup(1,1) is NotApplicable as claimed, while lookup(7,1) is NotApplicable
rather than SoleB(0,100). -/
theorem matrix_example_cells :
    determinarResponsabilidad 4 5 = ⟨"compartida", some 50, some 50, some "C", none⟩ ∧
    determinarResponsabilidad 1 2 = ⟨"vehiculo_b", some 0, some 100, some "B", none⟩ ∧
    (determinarResponsabilidad 7 1).responsable = "no_aplica" ∧
    (determinarResponsabilidad 1 1).responsable = "no_aplica" := by
  decide

/-- C9: for every circumstance pair in the valid 15x15 range the lookup never
yields the Indeterminate kind and never reaches an error branch: the baked-in
table holds only the codes A, B, C and NA. -/
theorem matrix_never_indeterminate_or_error (a b : Fin 15) :
    (determinarResponsabilidad ((a.val : Int) + 1) ((b.val : Int) + 1)).responsable
        ≠ "indeterminado" ∧
    (determinarResponsabilidad ((a.val : Int) + 1) ((b.val : Int) + 1)).responsable
        ≠ "error" := by
  revert a b
  decide

/-- C4: the coverage factor is 1.0 for the premium tier, 0.9 for the standard
tier (source string estandar), 0.8 for the basic tier (source string basica),
and 0.7 for any other tier value. -/
theorem coverage_factor_tiers (p : Poliza) :
    (p.tipo_cobertura = some "premium" → factorCobertura p = 1) ∧
    (p.tipo_cobertura = some "estandar" → factorCobertura p = 9/10) ∧
    (p.tipo_cobertura = some "basica" → factorCobertura p = 8/10) ∧
    (∀ s : String, p.tipo_cobertura = some s →
      s ≠ "premium" → s ≠ "estandar" → s ≠ "basica" → factorCobertura p = 7/10) := by
  refine ⟨fun h => ?_, fun h => ?_, fun h => ?_, fun s h h1 h2 h3 => ?_⟩ <;>
    simp [factorCobertura, h, *]

/-- C4 witness: the theorem applied at a premium policy and at an unknown
tier. -/
theorem coverage_factor_tiers_witness :
    factorCobertura ⟨some "premium", none, none⟩ = 1 ∧
    factorCobertura ⟨some "oro", none, none⟩ = 7/10 :=
  ⟨(coverage_factor_tiers _).1 rfl,
   (coverage_factor_tiers _).2.2.2 "oro" rfl (by decide) (by decide) (by decide)⟩

/-- C1 counterexample: invoked directly on the NotApplicable outcome of
lookup(1,1), the calculator does not fail: it defaults the missing
percentages to 0 and returns a complete all-zero result. -/
theorem calculator_on_no_liability_returns_result :
    calcularIndemnizacion (determinarResponsabilidad 1 1)
        ⟨none, none, none⟩ ⟨none, none, none⟩ ⟨none, none⟩ =
      ⟨⟨"vehiculo_a", "vehiculo_b", 0, 0, 0, "COP", 8/10⟩,
       ⟨"vehiculo_b", "vehiculo_a", 0, 0, 0, "COP", 8/10⟩, 0, 0, 0, 0⟩ := by
  decide

/-- C1 (amended): no NoLiabilityToCalculate failure exists; instead the
engine skips the calculator for NotApplicable and Indeterminate outcomes,
producing no indemnification at all, and the calculator itself, given an
outcome with no percentage fields, returns zero gross payments. -/
theorem no_liability_engine_guard (resp : ResultadoResponsabilidad)
    (polizaA polizaB : Poliza) (danos : Danos)
    (h : resp.responsable = "no_aplica" ∨ resp.responsable = "indeterminado") :
    calcularIndemnizacionSiAplica resp polizaA polizaB danos = none ∧
    (resp.porcentaje_a = none → resp.porcentaje_b = none →
      (calcularIndemnizacion resp polizaA polizaB danos).a_paga_b.monto_bruto = 0 ∧
      (calcularIndemnizacion resp polizaA polizaB danos).b_paga_a.monto_bruto = 0) := by
  constructor
  · simp [calcularIndemnizacionSiAplica, h]
  · intro ha hb
    constructor <;>
      simp [calcularIndemnizacion, ha, hb, pyRound2, pyRound]

/-- C1 witness: the amended theorem applied to the lookup(1,1) outcome with
concrete policies and damages. -/
theorem no_liability_engine_guard_witness :
    calcularIndemnizacionSiAplica (determinarResponsabilidad 1 1)
        ⟨none, none, none⟩ ⟨none, none, none⟩ ⟨none, some 500⟩ = none ∧
    (calcularIndemnizacion (determinarResponsabilidad 1 1)
        ⟨none, none, none⟩ ⟨none, none, none⟩ ⟨none, some 500⟩).a_paga_b.monto_bruto = 0 :=
  ⟨(no_liability_engine_guard _ _ _ _ (Or.inl rfl)).1,
   ((no_liability_engine_guard _ _ _ _ (Or.inl rfl)).2 rfl rfl).1⟩

/-- C2: evaluation of a concrete run (circumstances 14 and 15, one processed
shared-responsibility evidence and one shared document, both with confidence
1.0). The seed is (29,71); after one adjustment the distribution is (40,60)
and after a second it is (45,55), a difference of exactly 5 percentage
points, yet the convergence test fails there (5 is compared against the
threshold 0.05) and the run exhausts all 5 iterations without converging. -/
theorem convergence_threshold_run_evaluation :
    distribucionInicial 14 15 = ⟨29, 71⟩ ∧
    ajustarDistribucion (distribucionInicial 14 15)
        (calcularPesoEvidencias [⟨true, ⟨some "compartida", some 1⟩⟩])
        (calcularPesoDocumentos [⟨⟨some "compartida", some 1⟩⟩]) = ⟨40, 60⟩ ∧
    ajustarDistribucion ⟨40, 60⟩
        (calcularPesoEvidencias [⟨true, ⟨some "compartida", some 1⟩⟩])
        (calcularPesoDocumentos [⟨⟨some "compartida", some 1⟩⟩]) = ⟨45, 55⟩ ∧
    |(40 : Int) - 45| ≤ 5 ∧
    convergeDist ⟨40, 60⟩ ⟨45, 55⟩ = false ∧
    (negociar 14 15 [⟨⟨some "compartida", some 1⟩⟩]
        [⟨true, ⟨some "compartida", some 1⟩⟩]).convergio = false ∧
    (negociar 14 15 [⟨⟨some "compartida", some 1⟩⟩]
        [⟨true, ⟨some "compartida", some 1⟩⟩]).iteraciones = 5 := by
  decide

/-- C5 counterexample: a negotiation call whose evidence list carries a
malformed negative confidence does not fail: it runs all 5 iterations and
returns a LiabilityOutcome (with wildly out-of-range percentages), since the
source performs no weight validation. -/
theorem negotiation_accepts_negative_weight :
    negociar 1 2 [] [⟨true, ⟨some "vehiculo_a", some (-1)⟩⟩] =
      ⟨"vehiculo_a", 4500, -4400, 5, false⟩ := by
  decide

/-- C5 (amended): the negotiation never fails, whatever the evidence and
document inputs, malformed weights included: it always returns an outcome
classified as one of the three liability kinds. -/
theorem negotiation_never_fails (a b : Int) (docs : List Documento)
    (evs : List Evidencia) :
    (negociar a b docs evs).responsable = "vehiculo_a" ∨
    (negociar a b docs evs).responsable = "vehiculo_b" ∨
    (negociar a b docs evs).responsable = "compartida" := by
  rw [negociar_eq]
  split
  · exact Or.inl rfl
  · split
    · exact Or.inr (Or.inl rfl)
    · exact Or.inr (Or.inr rfl)

/-- C6: the seed distribution sums to exactly 100 for every circumstance
pair, and every adjustment step returns a distribution summing to exactly
100 whatever its inputs, thanks to the rounding-residual correction on
porcentaje_a; hence the negotiation state sums to 100 after every
iteration. -/
theorem negotiation_sum_invariant :
    (∀ a b : Int,
      (distribucionInicial a b).porcentaje_a + (distribucionInicial a b).porcentaje_b
        = 100) ∧
    (∀ (d : Distribucion) (pe pd : PesoResumen),
      (ajustarDistribucion d pe pd).porcentaje_a + (ajustarDistribucion d pe pd).porcentaje_b
        = 100) :=
  ⟨distribucionInicial_sum, ajustarDistribucion_sum⟩

/-- C7: every negotiation call reports at most 5 iterations, and whenever the
convergence flag is false the reported count is exactly 5. -/
theorem negotiation_bounded (a b : Int) (docs : List Documento)
    (evs : List Evidencia) :
    (negociar a b docs evs).iteraciones ≤ 5 ∧
    ((negociar a b docs evs).convergio = false →
      (negociar a b docs evs).iteraciones = 5) := by
  have hle : (negociarRun a b docs evs).2 ≤ 5 :=
    negociarLoop_snd_le _ _ maxIteraciones 0 (distribucionInicial a b)
  constructor
  · exact hle
  · intro hc
    show (negociarRun a b docs evs).2 = 5
    have h2 : decide ((negociarRun a b docs evs).2 < maxIteraciones) = false := hc
    have h3 := of_decide_eq_false h2
    simp only [maxIteraciones] at h3
    omega

/-- C7 witness: the theorem applied to a concrete non-converging run. -/
theorem negotiation_bounded_witness :
    (negociar 14 15 [⟨⟨some "compartida", some 1⟩⟩]
        [⟨true, ⟨some "compartida", some 1⟩⟩]).iteraciones = 5 :=
  (negotiation_bounded 14 15 [⟨⟨some "compartida", some 1⟩⟩]
      [⟨true, ⟨some "compartida", some 1⟩⟩]).2 (by decide)

/-- C8: the returned outcome carries the actual final percentages of the run
(not forced to 100/0 or 50/50), and its kind is the A-dominant kind when the
final pctA is at least 90, the B-dominant kind when the final pctB is at
least 90, and Shared otherwise. -/
theorem negotiation_final_classification (a b : Int) (docs : List Documento)
    (evs : List Evidencia) :
    (negociar a b docs evs).porcentaje_a = (negociarRun a b docs evs).1.porcentaje_a ∧
    (negociar a b docs evs).porcentaje_b = (negociarRun a b docs evs).1.porcentaje_b ∧
    (90 ≤ (negociarRun a b docs evs).1.porcentaje_a →
      (negociar a b docs evs).responsable = "vehiculo_a") ∧
    (90 ≤ (negociarRun a b docs evs).1.porcentaje_b →
      (negociar a b docs evs).responsable = "vehiculo_b") ∧
    ((negociarRun a b docs evs).1.porcentaje_a < 90 →
      (negociarRun a b docs evs).1.porcentaje_b < 90 →
      (negociar a b docs evs).responsable = "compartida") := by
  have hsum := negociarRun_sum a b docs evs
  rw [negociar_eq]
  refine ⟨rfl, rfl, fun hA => ?_, fun hB => ?_, fun hA hB => ?_⟩
  · rw [if_pos hA]
  · rw [if_neg (by omega), if_pos hB]
  · rw [if_neg (by omega), if_neg (by omega)]

/-- C8 witness: the theorem applied to a run that ends at the split (50,50),
classified Shared with the actual percentages. -/
theorem negotiation_final_classification_witness :
    (negociar 1 1 [] []).responsable = "compartida" :=
  (negotiation_final_classification 1 1 [] []).2.2.2.2 (by decide) (by decide)

/-- C10: in both weight-aggregation loop bodies, an item whose suggested
responsibility is vehicle A adds its confidence to the B weight, an item
suggesting vehicle B adds its confidence to the A weight, and an item
suggesting shared responsibility adds half its confidence to each, mirroring
the inverted seed formula. -/
theorem weight_aggregation_inverts_blame (acc : PesoResumen) (ev : Evidencia)
    (doc : Documento) :
    (ev.procesada = true → ev.analisis.responsabilidad_sugerida = some "vehiculo_a" →
      pasoEvidencia acc ev =
        ⟨acc.peso_a, acc.peso_b + ev.analisis.confianza.getD (1/2), acc.total + 1⟩) ∧
    (ev.procesada = true → ev.analisis.responsabilidad_sugerida = some "vehiculo_b" →
      pasoEvidencia acc ev =
        ⟨acc.peso_a + ev.analisis.confianza.getD (1/2), acc.peso_b, acc.total + 1⟩) ∧
    (ev.procesada = true → ev.analisis.responsabilidad_sugerida = some "compartida" →
      pasoEvidencia acc ev =
        ⟨acc.peso_a + ev.analisis.confianza.getD (1/2) * (1/2),
         acc.peso_b + ev.analisis.confianza.getD (1/2) * (1/2), acc.total + 1⟩) ∧
    (¬ doc.clasificacion.confianza.getD (1/2) < 3/10 →
      doc.clasificacion.responsabilidad_sugerida = some "vehiculo_a" →
      pasoDocumento acc doc =
        ⟨acc.peso_a, acc.peso_b + doc.clasificacion.confianza.getD (1/2), acc.total + 1⟩) ∧
    (¬ doc.clasificacion.confianza.getD (1/2) < 3/10 →
      doc.clasificacion.responsabilidad_sugerida = some "vehiculo_b" →
      pasoDocumento acc doc =
        ⟨acc.peso_a + doc.clasificacion.confianza.getD (1/2), acc.peso_b, acc.total + 1⟩) ∧
    (¬ doc.clasificacion.confianza.getD (1/2) < 3/10 →
      doc.clasificacion.responsabilidad_sugerida = some "compartida" →
      pasoDocumento acc doc =
        ⟨acc.peso_a + doc.clasificacion.confianza.getD (1/2) * (1/2),
         acc.peso_b + doc.clasificacion.confianza.getD (1/2) * (1/2), acc.total + 1⟩) := by
  refine ⟨fun hp hs => ?_, fun hp hs => ?_, fun hp hs => ?_,
          fun hc hs => ?_, fun hc hs => ?_, fun hc hs => ?_⟩
  · simp [pasoEvidencia, hp, hs]
  · simp [pasoEvidencia, hp, hs]
  · simp [pasoEvidencia, hp, hs]
  · simp only [pasoDocumento, hs, if_neg hc]
    simp
  · simp only [pasoDocumento, hs, if_neg hc]
    simp
  · simp only [pasoDocumento, hs, if_neg hc]
    simp

/-- C10 witness: the theorem applied to a concrete processed evidence item
blaming vehicle A and a concrete document blaming vehicle B. -/
theorem weight_aggregation_inverts_blame_witness :
    pasoEvidencia ⟨0, 0, 0⟩ ⟨true, ⟨some "vehiculo_a", some 1⟩⟩ = ⟨0, 1, 1⟩ ∧
    pasoDocumento ⟨0, 0, 0⟩ ⟨⟨some "vehiculo_b", some 1⟩⟩ = ⟨1, 0, 1⟩ := by
  constructor
  · have h := (weight_aggregation_inverts_blame ⟨0, 0, 0⟩
      ⟨true, ⟨some "vehiculo_a", some 1⟩⟩ ⟨⟨some "vehiculo_b", some 1⟩⟩).1 rfl rfl
    simpa using h
  · have h := (weight_aggregation_inverts_blame ⟨0, 0, 0⟩
      ⟨true, ⟨some "vehiculo_a", some 1⟩⟩ ⟨⟨some "vehiculo_b", some 1⟩⟩).2.2.2.2.1
      (by norm_num) rfl
    simpa using h
